import Mathlib

/-!
Verification development for the nestjs-starter-kit-v2 RBAC / workspace core.

The TypeScript source is shallowly embedded: Prisma store state becomes an
explicit `Store` record threaded through the service operations, Prisma
queries (`findUnique`, `findFirst`, `findMany`) become list lookups over that
state, thrown Nest exceptions become `Except AppError`, and the external
password hasher (bcrypt) is an opaque parameter with `hash`/`compare`.
-/

namespace NestStarter

/-- `Role` enum from `src/shared/enums/role.enum.ts` (values OWNER, ADMIN,
MEMBER, as used by the workspace controller and guard). -/
inductive Role where
  | OWNER
  | ADMIN
  | MEMBER
deriving DecidableEq, Repr

/-- Prisma `User` row: `{id, username, passwordHash}` (timestamps omitted as
no claim consults them). -/
structure User where
  id : String
  username : String
  passwordHash : String
deriving DecidableEq, Repr

/-- `Omit<PrismaUser, 'passwordHash'>` — the user record with the hash
stripped, as returned by `AuthService.validateUser` and `UsersService.create`. -/
structure UserPublic where
  id : String
  username : String
deriving DecidableEq, Repr

/-- Prisma `Workspace` row: `{id, name, description?, ownerId}`. -/
structure Workspace where
  id : String
  name : String
  description : Option String
  ownerId : String
deriving DecidableEq, Repr

/-- Prisma `Access` row: the `(userId, workspaceId, role)` grant triple. -/
structure Access where
  userId : String
  workspaceId : String
  role : Role
deriving DecidableEq, Repr

/-- The database state: the three Prisma tables in insertion order, plus a
counter from which fresh row ids are generated. -/
structure Store where
  users : List User
  workspaces : List Workspace
  accesses : List Access
  nextId : Nat
deriving DecidableEq, Repr

/-- Nest exceptions thrown by the embedded code, with their messages. -/
inductive AppError where
  | forbidden (msg : String)
  | notFound (msg : String)
  | conflict (msg : String)
  | unauthorized (msg : String)
  | internal
deriving DecidableEq, Repr

/-- `this.db.workspace.findUnique({ where: { id } })`. -/
def Store.workspaceFindUnique (s : Store) (id : String) : Option Workspace :=
  s.workspaces.find? (fun w => w.id == id)

/-- `this.db.access.findFirst({ where: { userId, workspaceId, role: { in: roles } } })`. -/
def Store.accessFindFirst (s : Store) (userId workspaceId : String)
    (roles : List Role) : Option Access :=
  s.accesses.find? (fun a =>
    a.userId == userId && a.workspaceId == workspaceId && roles.contains a.role)

/-- `this.db.user.findUnique({ where: { username } })`. -/
def Store.userFindByUsername (s : Store) (username : String) : Option User :=
  s.users.find? (fun u => u.username == username)

/-- The id Prisma would mint for the next created row. -/
def Store.freshId (s : Store) : String :=
  "row-" ++ toString s.nextId

/-- Express route parameters as seen by the guard: `request.params.id` and
`request.params.workspaceId`, each possibly absent. -/
structure RequestParams where
  id : Option String
  workspaceId : Option String
deriving DecidableEq, Repr

/-- JavaScript truthiness of an optional string: `undefined` and `""` are
falsy. -/
def jsTruthy : Option String → Bool
  | none => false
  | some s => !s.isEmpty

/-- JavaScript `a || b` on optional strings, as in
`request.params.id || request.params.workspaceId`. -/
def jsOr (a b : Option String) : Option String :=
  if jsTruthy a then a else b

namespace RolesGuard

/-- `RolesGuard.canActivate` from `src/modules/auth/guards/roles.guard.ts`:
`requiredRoles` is what the reflector returned (absent or a list), `user` is
`request.user` as set by `JwtAuthGuard` (absent if authentication did not
run), `params` the route parameters. Throwing `ForbiddenException` is
`Except.error (.forbidden msg)`. -/
def canActivate (requiredRoles : Option (List Role)) (user : Option UserPublic)
    (params : RequestParams) (s : Store) : Except AppError Bool :=
  match requiredRoles with
  | none => .ok true
  | some roles =>
    if roles.isEmpty then
      .ok true
    else
      match user with
      | none => .error (.forbidden "User not authenticated.")
      | some u =>
        match jsOr params.id params.workspaceId with
        | none => .error (.forbidden "Workspace ID not provided in request parameters.")
        | some workspaceId =>
          if workspaceId.isEmpty then
            .error (.forbidden "Workspace ID not provided in request parameters.")
          else
            match s.accessFindFirst u.id workspaceId roles with
            | some _ => .ok true
            | none => .error (.forbidden "You do not have the required roles for this workspace.")

end RolesGuard

/-- `CreateWorkspaceDto`: `name` required, `description` optional. -/
structure CreateWorkspaceDto where
  name : String
  description : Option String
deriving DecidableEq, Repr

/-- `UpdateWorkspaceDto` (`PartialType` of the create dto): each field may be
absent, and Prisma skips absent fields in `data:`. -/
structure UpdateWorkspaceDto where
  name : Option String
  description : Option String
deriving DecidableEq, Repr

/-- `CreateUserDto`: the signup body. -/
structure CreateUserDto where
  username : String
  password : String
deriving DecidableEq, Repr

/-- `SignInDto`: the signin body. -/
structure SignInDto where
  username : String
  password : String
deriving DecidableEq, Repr

/-- The external bcrypt collaborator: an opaque one-way hash with a verify
operation, exactly the interface the services consume. -/
structure PasswordHasher where
  hash : String → String
  compare : String → String → Bool

/-- Injected failures of the two database writes inside
`WorkspaceService.create`'s `$transaction`, modelling the ORM's rollback
semantics: if either write fails the transaction persists nothing. -/
structure DbFaults where
  workspaceCreateFails : Bool
  accessCreateFails : Bool
deriving DecidableEq, Repr

/-- The `NotFoundException` message built by `WorkspaceService.update` and
`WorkspaceService.remove`. -/
def notFoundMsg (id : String) : String :=
  "Workspace with ID \"" ++ id ++ "\" not found."

/-- The success message returned by `WorkspaceService.remove`. -/
def removedMsg (id : String) : String :=
  "Workspace with ID \"" ++ id ++ "\" deleted successfully."

/-- Prisma `workspace.update({ where: { id }, data: dto })` applied to one
row: absent dto fields leave the row's fields untouched. -/
def applyUpdate (dto : UpdateWorkspaceDto) (w : Workspace) : Workspace :=
  { w with
    name := dto.name.getD w.name
    description := match dto.description with
      | some d => some d
      | none => w.description }

namespace WorkspaceService

/-- `WorkspaceService.create`: inside one `$transaction`, create the
workspace row, then the `{userId, workspaceId, OWNER}` access row. Either
write may fail (`f`); the transaction then rolls back and the store is
unchanged. -/
def create (dto : CreateWorkspaceDto) (userId : String) (f : DbFaults)
    (s : Store) : Except AppError Workspace × Store :=
  if f.workspaceCreateFails then
    (.error .internal, s)
  else
    let newWorkspace : Workspace :=
      { id := s.freshId, name := dto.name, description := dto.description,
        ownerId := userId }
    if f.accessCreateFails then
      (.error .internal, s)
    else
      (.ok newWorkspace,
       { s with
         workspaces := s.workspaces ++ [newWorkspace]
         accesses := s.accesses ++
           [{ userId := userId, workspaceId := newWorkspace.id, role := Role.OWNER }]
         nextId := s.nextId + 1 })

/-- `WorkspaceService.findAllAccessible`: fetch the user's access grants in
store order, joining each to its workspace (`include: { workspace: true }`),
and project the workspaces. -/
def findAllAccessible (userId : String) (s : Store) : List Workspace :=
  (s.accesses.filter (fun a => a.userId == userId)).filterMap
    (fun a => s.workspaceFindUnique a.workspaceId)

/-- `WorkspaceService.findOne`: existence lookup only; `null` becomes `none`.
`userId` is received but not consulted (the guard already ran). -/
def findOne (id : String) (userId : String) (s : Store) : Option Workspace :=
  s.workspaceFindUnique id

/-- `WorkspaceService.update`: existence check, then `NotFoundException` if
absent, else the partial field update on the matching row. `userId` is not
consulted. -/
def update (id : String) (dto : UpdateWorkspaceDto) (userId : String)
    (s : Store) : Except AppError Workspace × Store :=
  match s.workspaceFindUnique id with
  | none => (.error (.notFound (notFoundMsg id)), s)
  | some w =>
    (.ok (applyUpdate dto w),
     { s with
       workspaces := s.workspaces.map
         (fun x => if x.id == id then applyUpdate dto x else x) })

/-- `WorkspaceService.remove`: existence check, then `NotFoundException` if
absent, else delete the row (the Prisma schema cascades the delete to the
workspace's access rows). `userId` is not consulted. -/
def remove (id : String) (userId : String) (s : Store) :
    Except AppError String × Store :=
  match s.workspaceFindUnique id with
  | none => (.error (.notFound (notFoundMsg id)), s)
  | some _ =>
    (.ok (removedMsg id),
     { s with
       workspaces := s.workspaces.filter (fun w => w.id != id)
       accesses := s.accesses.filter (fun a => a.workspaceId != id) })

end WorkspaceService

namespace UsersService

/-- `UsersService.findByUsername`. -/
def findByUsername (s : Store) (username : String) : Option User :=
  s.userFindByUsername username

/-- `UsersService.create`: hash the password, persist the user, return it
without the hash. -/
def create (hasher : PasswordHasher) (dto : CreateUserDto) (s : Store) :
    UserPublic × Store :=
  let newUser : User :=
    { id := s.freshId, username := dto.username,
      passwordHash := hasher.hash dto.password }
  ({ id := newUser.id, username := newUser.username },
   { s with users := s.users ++ [newUser], nextId := s.nextId + 1 })

end UsersService

namespace AuthService

/-- `AuthService.validateUser`: look up by username; on a hash match return
the user minus the hash, otherwise `null` — never an exception. -/
def validateUser (hasher : PasswordHasher) (dto : SignInDto) (s : Store) :
    Option UserPublic :=
  match UsersService.findByUsername s dto.username with
  | some user =>
    if hasher.compare dto.password user.passwordHash then
      some { id := user.id, username := user.username }
    else
      none
  | none => none

/-- `AuthService.signup`: `ConflictException` if the username exists,
otherwise delegate to `UsersService.create`. -/
def signup (hasher : PasswordHasher) (dto : CreateUserDto) (s : Store) :
    Except AppError UserPublic × Store :=
  match UsersService.findByUsername s dto.username with
  | some _ => (.error (.conflict "Username already exists"), s)
  | none =>
    let (u, s') := UsersService.create hasher dto s
    (.ok u, s')

end AuthService

/-- The `DELETE /workspaces/:id` pipeline from the workspace controller:
`JwtAuthGuard` has resolved `user`, then `RolesGuard` runs with
`@Roles(Role.OWNER)` and the `:id` route parameter, and only if it allows
does `WorkspaceService.remove` run. -/
def deleteWorkspaceEndpoint (wsId : String) (user : UserPublic) (s : Store) :
    Except AppError Unit × Store :=
  match RolesGuard.canActivate (some [Role.OWNER]) (some user)
      { id := some wsId, workspaceId := none } s with
  | .error e => (.error e, s)
  | .ok false => (.error (.forbidden "Forbidden resource"), s)
  | .ok true =>
    let (r, s') := WorkspaceService.remove wsId user.id s
    (r.map (fun _ => ()), s')

/-! ## Theorems -/

/-- The grant query of the guard succeeds exactly when a matching grant row
exists in the access store. -/
theorem accessFindFirst_isSome_iff (s : Store) (uid wid : String)
    (roles : List Role) :
    (s.accessFindFirst uid wid roles).isSome = true ↔
      ∃ a ∈ s.accesses, a.userId = uid ∧ a.workspaceId = wid ∧ a.role ∈ roles := by
  simp [Store.accessFindFirst, List.find?_isSome, and_assoc]

/-- On the main path (nonempty required roles, authenticated user, nonempty
`:id` route parameter) the guard's outcome is decided by the grant query
alone. -/
theorem canActivate_main_path (roles : List Role) (u : UserPublic)
    (wsId : String) (s : Store) (hroles : roles ≠ []) (hws : wsId ≠ "") :
    RolesGuard.canActivate (some roles) (some u) ⟨some wsId, none⟩ s =
      match s.accessFindFirst u.id wsId roles with
      | some _ => .ok true
      | none =>
        .error (.forbidden "You do not have the required roles for this workspace.") := by
  have hemp : wsId.isEmpty = false := by
    simp [Bool.eq_false_iff, String.isEmpty_iff, hws]
  simp [RolesGuard.canActivate, List.isEmpty_eq_false.mpr hroles, jsOr,
    jsTruthy, hemp]

/-- C4: the authorize algorithm checks its guard clauses in order — an empty
or absent required-role set allows unconditionally whatever the user, the
parameters and the store; with a nonempty role set and no authenticated user
it denies as unauthenticated; with a user but no truthy workspace parameter
it denies for the missing workspace identifier. -/
theorem canActivate_guard_clause_order
    (user : Option UserPublic) (params : RequestParams) (s : Store)
    (roles : List Role) (u : UserPublic) :
    (RolesGuard.canActivate none user params s = .ok true
      ∧ RolesGuard.canActivate (some []) user params s = .ok true)
    ∧ (roles ≠ [] →
        RolesGuard.canActivate (some roles) none params s
          = .error (.forbidden "User not authenticated."))
    ∧ (roles ≠ [] → jsTruthy (jsOr params.id params.workspaceId) = false →
        RolesGuard.canActivate (some roles) (some u) params s
          = .error (.forbidden "Workspace ID not provided in request parameters.")) := by
  refine ⟨⟨rfl, by simp [RolesGuard.canActivate]⟩, ?_, ?_⟩
  · intro hne
    simp [RolesGuard.canActivate, List.isEmpty_eq_false.mpr hne]
  · intro hne htruthy
    simp only [RolesGuard.canActivate, List.isEmpty_eq_false.mpr hne]
    cases hjs : jsOr params.id params.workspaceId with
    | none => simp
    | some wid =>
      rw [hjs] at htruthy
      simp only [jsTruthy, Bool.not_eq_false'] at htruthy
      simp [htruthy]

/-- Witness for C4 at concrete inputs. -/
theorem canActivate_guard_clause_order_witness :
    RolesGuard.canActivate (some [Role.OWNER]) (some ⟨"u1", "alice"⟩)
        ⟨none, none⟩ ⟨[], [], [], 0⟩
      = .error (.forbidden "Workspace ID not provided in request parameters.") :=
  (canActivate_guard_clause_order (some ⟨"u1", "alice"⟩) ⟨none, none⟩
      ⟨[], [], [], 0⟩ [Role.OWNER] ⟨"u1", "alice"⟩).2.2
    (by decide) (by decide)

/-- C1: with a nonempty required role set, the guard allows iff some access
grant matches `(userId, workspaceId, role ∈ requiredRoles)`, and otherwise
denies with the Forbidden "insufficient role" error; in particular roles are
not hierarchical — a user whose only grants on the workspace are MEMBER is
denied when {OWNER} is required. -/
theorem authorize_allows_iff_grant (roles : List Role) (u : UserPublic)
    (wsId : String) (s : Store) (hroles : roles ≠ []) (hws : wsId ≠ "") :
    (RolesGuard.canActivate (some roles) (some u) ⟨some wsId, none⟩ s = .ok true ↔
       ∃ a ∈ s.accesses, a.userId = u.id ∧ a.workspaceId = wsId ∧ a.role ∈ roles)
    ∧ ((¬∃ a ∈ s.accesses, a.userId = u.id ∧ a.workspaceId = wsId ∧ a.role ∈ roles) →
       RolesGuard.canActivate (some roles) (some u) ⟨some wsId, none⟩ s
         = .error (.forbidden "You do not have the required roles for this workspace."))
    ∧ ((∀ a ∈ s.accesses, a.userId = u.id → a.workspaceId = wsId →
          a.role = Role.MEMBER) →
       RolesGuard.canActivate (some [Role.OWNER]) (some u) ⟨some wsId, none⟩ s
         = .error (.forbidden "You do not have the required roles for this workspace.")) := by
  have hred := canActivate_main_path roles u wsId s hroles hws
  have hiff := accessFindFirst_isSome_iff s u.id wsId roles
  refine ⟨?_, ?_, ?_⟩
  · rw [hred]
    cases hfind : s.accessFindFirst u.id wsId roles with
    | some a =>
      simp only [hfind, Option.isSome_some, true_iff] at hiff ⊢
      simpa using hiff
    | none =>
      simp only [hfind, Option.isSome_none, false_iff] at hiff ⊢
      simpa using hiff
  · intro hno
    rw [hred]
    cases hfind : s.accessFindFirst u.id wsId roles with
    | some a => exact absurd (hiff.mp (by simp [hfind])) hno
    | none => rfl
  · intro hmem
    have hred' := canActivate_main_path [Role.OWNER] u wsId s (by simp) hws
    have hiff' := accessFindFirst_isSome_iff s u.id wsId [Role.OWNER]
    rw [hred']
    cases hfind : s.accessFindFirst u.id wsId [Role.OWNER] with
    | some a =>
      obtain ⟨b, hb, hbu, hbw, hbr⟩ := hiff'.mp (by simp [hfind])
      have := hmem b hb hbu hbw
      simp [this] at hbr
    | none => rfl

/-- Witness for C1: in a store where alice holds only a MEMBER grant on
workspace `w1`, the guard allows a MEMBER check and denies an OWNER check. -/
theorem authorize_allows_iff_grant_witness :
    (RolesGuard.canActivate (some [Role.MEMBER]) (some ⟨"u1", "alice"⟩)
        ⟨some "w1", none⟩
        ⟨[], [], [{ userId := "u1", workspaceId := "w1", role := Role.MEMBER }], 0⟩
        = .ok true)
    ∧ (RolesGuard.canActivate (some [Role.OWNER]) (some ⟨"u1", "alice"⟩)
        ⟨some "w1", none⟩
        ⟨[], [], [{ userId := "u1", workspaceId := "w1", role := Role.MEMBER }], 0⟩
        = .error (.forbidden "You do not have the required roles for this workspace.")) := by
  constructor
  · exact (authorize_allows_iff_grant [Role.MEMBER] ⟨"u1", "alice"⟩ "w1"
      ⟨[], [], [{ userId := "u1", workspaceId := "w1", role := Role.MEMBER }], 0⟩
      (by decide) (by decide)).1.mpr
      ⟨{ userId := "u1", workspaceId := "w1", role := Role.MEMBER },
        by simp, rfl, rfl, by simp⟩
  · exact (authorize_allows_iff_grant [Role.MEMBER] ⟨"u1", "alice"⟩ "w1"
      ⟨[], [], [{ userId := "u1", workspaceId := "w1", role := Role.MEMBER }], 0⟩
      (by decide) (by decide)).2.2
      (by intro a ha hu hw; simp at ha; simp [ha])

/-- C3: for every workspace id (present in the store or not) and every
authenticated user holding no grant on it, the DELETE pipeline stops at the
guard with the Forbidden "insufficient role" error — `WorkspaceService.remove`
and its existence check never run, the store is untouched, and no NotFound
can be produced. -/
theorem delete_denies_forbidden_without_grant (wsId : String) (u : UserPublic)
    (s : Store) (hws : wsId ≠ "")
    (hnogrant : ∀ a ∈ s.accesses, ¬(a.userId = u.id ∧ a.workspaceId = wsId)) :
    deleteWorkspaceEndpoint wsId u s
      = (.error (.forbidden "You do not have the required roles for this workspace."), s) := by
  have hred := canActivate_main_path [Role.OWNER] u wsId s (by simp) hws
  have hiff := accessFindFirst_isSome_iff s u.id wsId [Role.OWNER]
  unfold deleteWorkspaceEndpoint
  cases hfind : s.accessFindFirst u.id wsId [Role.OWNER] with
  | some a =>
    obtain ⟨b, hb, hbu, hbw, _⟩ := hiff.mp (by simp [hfind])
    exact absurd ⟨hbu, hbw⟩ (hnogrant b hb)
  | none =>
    rw [hred, hfind]

/-- Witness for C3: workspace `w1` exists and is owned by alice, yet bob
(no grant) receives Forbidden rather than NotFound from the DELETE pipeline. -/
theorem delete_denies_forbidden_without_grant_witness :
    deleteWorkspaceEndpoint "w1" ⟨"u2", "bob"⟩
        ⟨[], [{ id := "w1", name := "W1", description := none, ownerId := "u1" }],
         [{ userId := "u1", workspaceId := "w1", role := Role.OWNER }], 0⟩
      = (.error (.forbidden "You do not have the required roles for this workspace."),
         ⟨[], [{ id := "w1", name := "W1", description := none, ownerId := "u1" }],
          [{ userId := "u1", workspaceId := "w1", role := Role.OWNER }], 0⟩) :=
  delete_denies_forbidden_without_grant "w1" ⟨"u2", "bob"⟩
    ⟨[], [{ id := "w1", name := "W1", description := none, ownerId := "u1" }],
     [{ userId := "u1", workspaceId := "w1", role := Role.OWNER }], 0⟩
    (by decide) (by decide)

/-- C2: `WorkspaceService.create` is atomic — when both writes succeed the
resulting store holds the new workspace (owned by the caller) and exactly
one OWNER grant for the caller on the new workspace id; when either write
fails the store is completely unchanged and an error is returned. -/
theorem create_atomic (dto : CreateWorkspaceDto) (userId : String)
    (f : DbFaults) (s : Store)
    (hfresh : ∀ a ∈ s.accesses, a.workspaceId ≠ s.freshId) :
    (f.workspaceCreateFails = false → f.accessCreateFails = false →
       ∃ w, (WorkspaceService.create dto userId f s).1 = .ok w
         ∧ w.ownerId = userId
         ∧ w ∈ (WorkspaceService.create dto userId f s).2.workspaces
         ∧ (WorkspaceService.create dto userId f s).2.accesses.countP
             (fun a => a.userId == userId && a.workspaceId == w.id
                && a.role == Role.OWNER) = 1)
    ∧ (f.workspaceCreateFails = true ∨ f.accessCreateFails = true →
       (WorkspaceService.create dto userId f s).2 = s
         ∧ ∃ e, (WorkspaceService.create dto userId f s).1 = .error e) := by
  constructor
  · intro h1 h2
    refine ⟨{ id := s.freshId, name := dto.name, description := dto.description,
              ownerId := userId }, ?_, rfl, ?_, ?_⟩
    · simp [WorkspaceService.create, h1, h2]
    · simp [WorkspaceService.create, h1, h2]
    · simp only [WorkspaceService.create, h1, h2, Bool.false_eq_true, if_false,
        List.countP_append]
      have hzero : s.accesses.countP
          (fun a => a.userId == userId && a.workspaceId == s.freshId
             && a.role == Role.OWNER) = 0 := by
        refine List.countP_eq_zero.mpr (fun a ha => ?_)
        simp only [Bool.and_eq_true, beq_iff_eq, not_and]
        intro ⟨_, hw⟩ _
        exact hfresh a ha hw
      simp [hzero]
  · intro h
    rcases h with h | h <;> simp [WorkspaceService.create, h]

/-- Witness for C2 on the empty store with no injected faults. -/
theorem create_atomic_witness :
    ∃ w, (WorkspaceService.create ⟨"W1", none⟩ "u1" ⟨false, false⟩
            ⟨[], [], [], 0⟩).1 = .ok w
      ∧ w.ownerId = "u1"
      ∧ w ∈ (WorkspaceService.create ⟨"W1", none⟩ "u1" ⟨false, false⟩
               ⟨[], [], [], 0⟩).2.workspaces
      ∧ (WorkspaceService.create ⟨"W1", none⟩ "u1" ⟨false, false⟩
           ⟨[], [], [], 0⟩).2.accesses.countP
          (fun a => a.userId == "u1" && a.workspaceId == w.id
             && a.role == Role.OWNER) = 1 :=
  (create_atomic ⟨"W1", none⟩ "u1" ⟨false, false⟩ ⟨[], [], [], 0⟩
    (by simp)).1 rfl rfl

/-- C5: on an id absent from the workspace store, both `update` and `remove`
fail with the NotFound error and return the store unchanged. -/
theorem update_remove_absent_notFound (id : String) (dto : UpdateWorkspaceDto)
    (userId : String) (s : Store) (habs : ∀ w ∈ s.workspaces, w.id ≠ id) :
    WorkspaceService.update id dto userId s
      = (.error (.notFound (notFoundMsg id)), s)
    ∧ WorkspaceService.remove id userId s
      = (.error (.notFound (notFoundMsg id)), s) := by
  have hfind : s.workspaceFindUnique id = none := by
    simp only [Store.workspaceFindUnique, List.find?_eq_none, beq_iff_eq]
    exact habs
  exact ⟨by simp [WorkspaceService.update, hfind],
         by simp [WorkspaceService.remove, hfind]⟩

/-- Witness for C5: a store holding only workspace `w1` rejects update and
remove of the absent id `nope`. -/
theorem update_remove_absent_notFound_witness :
    WorkspaceService.update "nope" ⟨some "N", none⟩ "u1"
        ⟨[], [{ id := "w1", name := "W1", description := none, ownerId := "u1" }], [], 0⟩
      = (.error (.notFound (notFoundMsg "nope")),
         ⟨[], [{ id := "w1", name := "W1", description := none, ownerId := "u1" }], [], 0⟩)
    ∧ WorkspaceService.remove "nope" "u1"
        ⟨[], [{ id := "w1", name := "W1", description := none, ownerId := "u1" }], [], 0⟩
      = (.error (.notFound (notFoundMsg "nope")),
         ⟨[], [{ id := "w1", name := "W1", description := none, ownerId := "u1" }], [], 0⟩) :=
  update_remove_absent_notFound "nope" ⟨some "N", none⟩ "u1"
    ⟨[], [{ id := "w1", name := "W1", description := none, ownerId := "u1" }], [], 0⟩
    (by decide)

/-- C10: `findOne`, `update` and `remove` are insensitive to the `userId`
argument — the same store, id and patch give identical results and identical
final stores for any two user ids; the service layer does no per-user
authorization of its own. -/
theorem service_ops_ignore_userId (id : String) (dto : UpdateWorkspaceDto)
    (u1 u2 : String) (s : Store) :
    WorkspaceService.findOne id u1 s = WorkspaceService.findOne id u2 s
    ∧ WorkspaceService.update id dto u1 s = WorkspaceService.update id dto u2 s
    ∧ WorkspaceService.remove id u1 s = WorkspaceService.remove id u2 s :=
  ⟨rfl, rfl, rfl⟩

/-- C6: `validateUser` returns the stored user minus the hash exactly when
the username resolves and the password verifies; a missing username and a
failed verification both return `none` — the same value, never an error. -/
theorem validateUser_match_or_none (hasher : PasswordHasher) (dto : SignInDto)
    (s : Store) :
    (∀ user, UsersService.findByUsername s dto.username = some user →
       (hasher.compare dto.password user.passwordHash = true →
          AuthService.validateUser hasher dto s
            = some { id := user.id, username := user.username })
       ∧ (hasher.compare dto.password user.passwordHash = false →
          AuthService.validateUser hasher dto s = none))
    ∧ (UsersService.findByUsername s dto.username = none →
       AuthService.validateUser hasher dto s = none) := by
  constructor
  · intro user hfind
    constructor <;> intro hcmp <;> simp [AuthService.validateUser, hfind, hcmp]
  · intro hnone
    simp [AuthService.validateUser, hnone]

/-- Witness for C6 with a concrete injective hasher: the right password
returns alice minus the hash, the wrong one returns `none`. -/
theorem validateUser_match_or_none_witness :
    (AuthService.validateUser
        ⟨fun p => p ++ "#h", fun p h => (p ++ "#h") == h⟩ ⟨"alice", "pw1"⟩
        ⟨[{ id := "u1", username := "alice", passwordHash := "pw1#h" }], [], [], 1⟩
      = some { id := "u1", username := "alice" })
    ∧ (AuthService.validateUser
        ⟨fun p => p ++ "#h", fun p h => (p ++ "#h") == h⟩ ⟨"alice", "bad"⟩
        ⟨[{ id := "u1", username := "alice", passwordHash := "pw1#h" }], [], [], 1⟩
      = none) :=
  ⟨((validateUser_match_or_none
      ⟨fun p => p ++ "#h", fun p h => (p ++ "#h") == h⟩ ⟨"alice", "pw1"⟩
      ⟨[{ id := "u1", username := "alice", passwordHash := "pw1#h" }], [], [], 1⟩).1
      { id := "u1", username := "alice", passwordHash := "pw1#h" } (by decide)).1
      (by decide),
   ((validateUser_match_or_none
      ⟨fun p => p ++ "#h", fun p h => (p ++ "#h") == h⟩ ⟨"alice", "bad"⟩
      ⟨[{ id := "u1", username := "alice", passwordHash := "pw1#h" }], [], [], 1⟩).1
      { id := "u1", username := "alice", passwordHash := "pw1#h" } (by decide)).2
      (by decide)⟩

/-- C7: signup of an already-present username yields the Conflict error and
leaves the store unchanged; consequently a second signup of the same
username right after a first always conflicts, whatever the passwords. -/
theorem signup_conflict_on_duplicate (hasher : PasswordHasher)
    (dto dto2 : CreateUserDto) (s : Store) :
    ((∃ u ∈ s.users, u.username = dto.username) →
       AuthService.signup hasher dto s
         = (.error (.conflict "Username already exists"), s))
    ∧ (dto2.username = dto.username →
       (AuthService.signup hasher dto2 (AuthService.signup hasher dto s).2).1
         = .error (.conflict "Username already exists")) := by
  constructor
  · intro hex
    cases hfind : UsersService.findByUsername s dto.username with
    | none =>
      obtain ⟨u, hu, huname⟩ := hex
      simp only [UsersService.findByUsername, Store.userFindByUsername,
        List.find?_eq_none, beq_iff_eq] at hfind
      exact absurd huname (hfind u hu)
    | some u =>
      simp [AuthService.signup, hfind]
  · intro hname
    cases hfind : UsersService.findByUsername s dto.username with
    | some u =>
      have hs2 : (AuthService.signup hasher dto s).2 = s := by
        simp [AuthService.signup, hfind]
      rw [hs2]
      have hfind2 : UsersService.findByUsername s dto2.username = some u := by
        rw [hname]; exact hfind
      simp [AuthService.signup, hfind2]
    | none =>
      have hs2 : (AuthService.signup hasher dto s).2
          = Store.mk (s.users ++ [User.mk s.freshId dto.username (hasher.hash dto.password)]) s.workspaces s.accesses (s.nextId + 1) := by
        simp [AuthService.signup, hfind, UsersService.create]
      rw [hs2]
      have hfind2 : UsersService.findByUsername
          (Store.mk (s.users ++ [User.mk s.freshId dto.username (hasher.hash dto.password)]) s.workspaces s.accesses (s.nextId + 1)) dto2.username
          = some (User.mk s.freshId dto.username (hasher.hash dto.password)) := by
        have hnone2 : s.users.find? (fun u => u.username == dto2.username) = none := by
          rw [hname]
          simpa [UsersService.findByUsername, Store.userFindByUsername] using hfind
        simp only [UsersService.findByUsername, Store.userFindByUsername,
          List.find?_append, hnone2, Option.none_or]
        simp [List.find?, hname]
      simp [AuthService.signup, hfind2]

/-- Witness for C7: signing up `alice` twice on the empty store conflicts on
the second call. -/
theorem signup_conflict_on_duplicate_witness :
    (AuthService.signup ⟨fun p => p ++ "#h", fun p h => (p ++ "#h") == h⟩
        ⟨"alice", "pw2"⟩
        (AuthService.signup ⟨fun p => p ++ "#h", fun p h => (p ++ "#h") == h⟩
          ⟨"alice", "pw1"⟩ ⟨[], [], [], 0⟩).2).1
      = .error (.conflict "Username already exists") :=
  (signup_conflict_on_duplicate
    ⟨fun p => p ++ "#h", fun p h => (p ++ "#h") == h⟩
    ⟨"alice", "pw1"⟩ ⟨"alice", "pw2"⟩ ⟨[], [], [], 0⟩).2 rfl

/-- Projecting the ids of a join of grants against the workspace table gives
back the grants' workspace ids, in order, whenever every grant resolves. -/
theorem filterMap_lookup_ids (ws : List Workspace) (L : List Access)
    (h : ∀ a ∈ L, ∃ w, ws.find? (fun x => x.id == a.workspaceId) = some w) :
    (L.filterMap (fun a => ws.find? (fun x => x.id == a.workspaceId))).map
        Workspace.id
      = L.map Access.workspaceId := by
  induction L with
  | nil => simp
  | cons a L ih =>
    obtain ⟨w, hw⟩ := h a (by simp)
    have hid : w.id = a.workspaceId := by simpa using List.find?_some hw
    simp only [List.filterMap_cons, hw, List.map_cons, hid]
    exact congrArg _ (ih (fun b hb => h b (by simp [hb])))

/-- C8: under referential integrity (every grant's workspace exists) and
unique workspace ids, `findAllAccessible` returns exactly the workspaces the
user holds some grant on; the returned ids follow the grant store's
insertion order, and a user with no grants gets the empty list. -/
theorem findAllAccessible_complete (userId : String) (s : Store)
    (hri : ∀ a ∈ s.accesses, ∃ w ∈ s.workspaces, w.id = a.workspaceId)
    (hnodup : (s.workspaces.map Workspace.id).Nodup) :
    (∀ w, w ∈ WorkspaceService.findAllAccessible userId s ↔
       w ∈ s.workspaces ∧ ∃ a ∈ s.accesses, a.userId = userId ∧ a.workspaceId = w.id)
    ∧ (WorkspaceService.findAllAccessible userId s).map Workspace.id
        = (s.accesses.filter (fun a => a.userId == userId)).map Access.workspaceId
    ∧ ((∀ a ∈ s.accesses, a.userId ≠ userId) →
       WorkspaceService.findAllAccessible userId s = []) := by
  refine ⟨?_, ?_, ?_⟩
  · intro w
    constructor
    · intro hmem
      simp only [WorkspaceService.findAllAccessible, List.mem_filterMap,
        List.mem_filter, Store.workspaceFindUnique] at hmem
      obtain ⟨a, ⟨ha, hau⟩, hfind⟩ := hmem
      have hwmem := List.mem_of_find?_eq_some hfind
      have hwid : w.id = a.workspaceId := by simpa using List.find?_some hfind
      exact ⟨hwmem, a, ha, by simpa using hau, hwid.symm⟩
    · rintro ⟨hwmem, a, ha, hau, haw⟩
      simp only [WorkspaceService.findAllAccessible, List.mem_filterMap,
        List.mem_filter, Store.workspaceFindUnique]
      refine ⟨a, ⟨ha, by simpa using hau⟩, ?_⟩
      obtain ⟨w0, hw0, hw0id⟩ := hri a ha
      cases hfind : s.workspaces.find? (fun x => x.id == a.workspaceId) with
      | none =>
        rw [List.find?_eq_none] at hfind
        exact absurd (by simpa using hw0id) (hfind w0 hw0)
      | some w1 =>
        have hw1mem := List.mem_of_find?_eq_some hfind
        have hw1id : w1.id = a.workspaceId := by simpa using List.find?_some hfind
        exact congrArg some (List.inj_on_of_nodup_map hnodup hw1mem hwmem
          (by rw [hw1id, ← haw]))
  · have := filterMap_lookup_ids s.workspaces
      (s.accesses.filter (fun a => a.userId == userId)) ?_
    · simpa [WorkspaceService.findAllAccessible, Store.workspaceFindUnique] using this
    · intro a ha
      have ha' : a ∈ s.accesses := (List.mem_filter.mp ha).1
      obtain ⟨w0, hw0, hw0id⟩ := hri a ha'
      cases hfind : s.workspaces.find? (fun x => x.id == a.workspaceId) with
      | none =>
        rw [List.find?_eq_none] at hfind
        exact absurd (by simpa using hw0id) (hfind w0 hw0)
      | some w1 => exact ⟨w1, rfl⟩
  · intro hno
    have : s.accesses.filter (fun a => a.userId == userId) = [] := by
      refine List.filter_eq_nil_iff.mpr (fun a ha => ?_)
      simpa using hno a ha
    simp [WorkspaceService.findAllAccessible, this]

/-- Witness for C8: alice (one MEMBER grant on `w1`) lists exactly `w1`;
bob (no grants) gets the empty list. -/
theorem findAllAccessible_complete_witness :
    (WorkspaceService.findAllAccessible "u1"
        ⟨[], [⟨"w1", "W1", none, "u1"⟩, ⟨"w2", "W2", none, "u1"⟩],
         [⟨"u1", "w1", Role.MEMBER⟩], 0⟩).map Workspace.id = ["w1"]
    ∧ WorkspaceService.findAllAccessible "u2"
        ⟨[], [⟨"w1", "W1", none, "u1"⟩, ⟨"w2", "W2", none, "u1"⟩],
         [⟨"u1", "w1", Role.MEMBER⟩], 0⟩ = [] := by
  constructor
  · exact ((findAllAccessible_complete "u1"
      ⟨[], [⟨"w1", "W1", none, "u1"⟩, ⟨"w2", "W2", none, "u1"⟩],
       [⟨"u1", "w1", Role.MEMBER⟩], 0⟩ (by decide) (by decide)).2.1).trans
      (by decide)
  · exact (findAllAccessible_complete "u2"
      ⟨[], [⟨"w1", "W1", none, "u1"⟩, ⟨"w2", "W2", none, "u1"⟩],
       [⟨"u1", "w1", Role.MEMBER⟩], 0⟩ (by decide) (by decide)).2.2
      (by decide)

/-- C9: updating an existing workspace returns the patched row with its id
and ownerId intact, and the store change is confined to that row's name and
description — users, grants and the id counter are untouched, every position
of the workspace table keeps its id and ownerId, and rows whose id differs
from the target are exactly the rows they were. -/
theorem update_frame_only_target_fields (id : String)
    (dto : UpdateWorkspaceDto) (userId : String) (s : Store)
    (hex : ∃ w ∈ s.workspaces, w.id = id) :
    (∃ w0 w1, s.workspaceFindUnique id = some w0
       ∧ (WorkspaceService.update id dto userId s).1 = .ok w1
       ∧ w1.id = w0.id ∧ w1.ownerId = w0.ownerId)
    ∧ (WorkspaceService.update id dto userId s).2.accesses = s.accesses
    ∧ (WorkspaceService.update id dto userId s).2.users = s.users
    ∧ (WorkspaceService.update id dto userId s).2.nextId = s.nextId
    ∧ (∀ i : Nat,
        (WorkspaceService.update id dto userId s).2.workspaces[i]?.map Workspace.id
          = s.workspaces[i]?.map Workspace.id
        ∧ (WorkspaceService.update id dto userId s).2.workspaces[i]?.map Workspace.ownerId
          = s.workspaces[i]?.map Workspace.ownerId
        ∧ ∀ w, s.workspaces[i]? = some w → w.id ≠ id →
            (WorkspaceService.update id dto userId s).2.workspaces[i]? = some w) := by
  obtain ⟨w, hwmem, hwid⟩ := hex
  have hsome : (s.workspaceFindUnique id).isSome = true := by
    simp only [Store.workspaceFindUnique, List.find?_isSome]
    exact ⟨w, hwmem, by simpa using hwid⟩
  obtain ⟨w0, hfind⟩ := Option.isSome_iff_exists.mp hsome
  refine ⟨⟨w0, applyUpdate dto w0, hfind, ?_, rfl, rfl⟩, ?_, ?_, ?_, ?_⟩
  · simp [WorkspaceService.update, hfind]
  · simp [WorkspaceService.update, hfind]
  · simp [WorkspaceService.update, hfind]
  · simp [WorkspaceService.update, hfind]
  · intro i
    have hws : (WorkspaceService.update id dto userId s).2.workspaces
        = s.workspaces.map (fun x => if x.id == id then applyUpdate dto x else x) := by
      simp [WorkspaceService.update, hfind]
    refine ⟨?_, ?_, ?_⟩
    · rw [hws, List.getElem?_map]
      cases s.workspaces[i]? with
      | none => rfl
      | some x =>
        simp only [Option.map_some']
        split <;> rfl
    · rw [hws, List.getElem?_map]
      cases s.workspaces[i]? with
      | none => rfl
      | some x =>
        simp only [Option.map_some']
        split <;> rfl
    · intro wx hwx hne
      rw [hws, List.getElem?_map, hwx]
      simp [hne]

/-- Witness for C9: patching `w1`'s name leaves its id and owner, the other
workspace and the grant table as they were. -/
theorem update_frame_only_target_fields_witness :
    (∃ w0 w1, Store.workspaceFindUnique
         ⟨[], [⟨"w1", "W1", none, "u1"⟩, ⟨"w2", "W2", none, "u1"⟩],
          [⟨"u1", "w1", Role.OWNER⟩], 0⟩ "w1" = some w0
       ∧ (WorkspaceService.update "w1" ⟨some "New", none⟩ "u1"
            ⟨[], [⟨"w1", "W1", none, "u1"⟩, ⟨"w2", "W2", none, "u1"⟩],
             [⟨"u1", "w1", Role.OWNER⟩], 0⟩).1 = .ok w1
       ∧ w1.id = w0.id ∧ w1.ownerId = w0.ownerId)
    ∧ (WorkspaceService.update "w1" ⟨some "New", none⟩ "u1"
         ⟨[], [⟨"w1", "W1", none, "u1"⟩, ⟨"w2", "W2", none, "u1"⟩],
          [⟨"u1", "w1", Role.OWNER⟩], 0⟩).2.accesses
        = [⟨"u1", "w1", Role.OWNER⟩] :=
  ⟨(update_frame_only_target_fields "w1" ⟨some "New", none⟩ "u1"
      ⟨[], [⟨"w1", "W1", none, "u1"⟩, ⟨"w2", "W2", none, "u1"⟩],
       [⟨"u1", "w1", Role.OWNER⟩], 0⟩
      ⟨⟨"w1", "W1", none, "u1"⟩, by simp, rfl⟩).1,
   (update_frame_only_target_fields "w1" ⟨some "New", none⟩ "u1"
      ⟨[], [⟨"w1", "W1", none, "u1"⟩, ⟨"w2", "W2", none, "u1"⟩],
       [⟨"u1", "w1", Role.OWNER⟩], 0⟩
      ⟨⟨"w1", "W1", none, "u1"⟩, by simp, rfl⟩).2.1⟩

end NestStarter
